import Mathlib

/-!
Verification of the web-scraping core of `real_estate_analysis`
(`src/real_estate_analysis/web_scraper.py`): the pagination discoverer
(`URLFetcher.fetch_page_urls`), the listing-URL extractor
(`HouseURLExtractor.extract_house_urls`), the per-listing field extractor
(`HouseDataExtractor.extract_house_details`) and the crawl runner
(`HouseDataExtractor.scrape_and_save_property_details`).

The HTML document handed to the extractor is modelled as a tree of nodes
(element nodes with a tag, attributes and children, and text nodes), with
BeautifulSoup's query primitives (`find`, `findAll`, `.text`) translated
into structural recursion over the tree.  Python string operations
(`split`, `strip`, `replace`, `int()`, `float()`) are translated into
executable Lean functions with Python's semantics.  Python `dict` values
are association lists with insert-or-overwrite update, preserving
insertion order.  A raised-and-uncaught Python exception is modelled by
`Except PyErr`; network fetches and file writes, the only effects of the
runner, are supplied by an oracle environment (`RunEnv`).
-/

set_option maxRecDepth 10000

/-- Uncaught Python exception kinds that the scraper code can raise. -/
inductive PyErr where
  | nameError       -- referencing a variable that was never bound
  | indexError      -- sequence index out of range
  | valueError      -- failed int()/float() coercion
  | typeError       -- e.g. str + None
  | attributeError  -- attribute access on None
  | fetchError      -- network failure inside urlopen / parsing
  | persistenceError -- failure of DataFrame.to_csv
deriving Repr, DecidableEq

/-- A scalar value stored in one field of a listing record: Python strings,
ints, floats, `np.nan` (the missing sentinel) and the `[school_dict]`
list-of-one-dict stored under the `Schools` key. -/
inductive Value where
  | str : String → Value
  | int : Int → Value
  | float : Rat → Value
  | nan : Value
  | schools : List (String × String) → Value
deriving Repr, DecidableEq

/-- A listing record / Python dict from field name to value, as an
insertion-ordered association list with unique keys. -/
abbrev RecDict := List (String × Value)

/-- One node of a parsed HTML document: an element with tag name,
attributes and children, or a text node. -/
inductive Node where
  | text : String → Node
  | elem : String → List (String × String) → List Node → Node
deriving Repr

/-- A parsed document (BeautifulSoup object): the list of top-level nodes. -/
abbrev Doc := List Node

/-- Value of an attribute on an element node (`tag.get(name)`),
`none` on a text node or when the attribute is absent. -/
def getAttr (n : Node) (key : String) : Option String :=
  match n with
  | .text _ => none
  | .elem _ attrs _ => (attrs.find? (fun p => p.1 = key)).map (fun p => p.2)

mutual

/-- `.text` / `get_text()`: concatenation of all text descendants in order. -/
def nodeText : Node → String
  | .text s => s
  | .elem _ _ cs => listText cs

/-- Text of a list of sibling nodes, in order. -/
def listText : List Node → String
  | [] => ""
  | c :: cs => nodeText c ++ listText cs

end

/-! ### Python string and number semantics

All character-level work is done by structural recursion over `List Char`
so that every definition evaluates by kernel reduction on concrete input. -/

/-- Is the first character list a leading segment of the second? -/
def isPreL : List Char → List Char → Bool
  | [], _ => true
  | _ :: _, [] => false
  | a :: as, b :: bs => a = b && isPreL as bs

/-- Split a character list at every character satisfying `p`, keeping
empty pieces (like Python `split(sep)` for a one-character separator). -/
def splitPredL (p : Char → Bool) : List Char → List (List Char)
  | [] => [[]]
  | c :: cs =>
      match splitPredL p cs with
      | [] => [[]]
      | g :: gs => if p c then [] :: g :: gs else (c :: g) :: gs

/-- Python `s.split(sep)` for the one-character separators the scraper
uses (`"$"`, `"B"`, `"S"`, `"\n"`, `" "`, `"."`). -/
def pySplitOnChar (s : String) (sep : Char) : List String :=
  (splitPredL (fun c => c = sep) s.toList).map List.asString

/-- Python `s.split()` with no argument: split on whitespace runs,
dropping empty pieces (so `"".split() == []`). -/
def pySplitWs (s : String) : List String :=
  ((splitPredL Char.isWhitespace s.toList).filter
    (fun g => !g.isEmpty)).map List.asString

/-- Remove leading and trailing whitespace (Python `s.strip()` as used by
`int()`/`float()` coercion). -/
def trimL (cs : List Char) : List Char :=
  ((cs.dropWhile Char.isWhitespace).reverse.dropWhile Char.isWhitespace).reverse

/-- Python `s.strip(chars)`: remove leading and trailing characters that
belong to the set of characters of `chars`. -/
def pyStrip (s : String) (chars : String) : String :=
  let keep : Char → Bool := fun c => chars.toList.contains c
  ((s.toList.dropWhile keep).reverse.dropWhile keep).reverse.asString

/-- Python `lst[-k]` (negative index): `IndexError` when `k > len`. -/
def pyGetNeg (l : List String) (k : Nat) : Option String :=
  if l.length < k then none else l.get? (l.length - k)

/-- Digits of a string interpreted in base 10. -/
def digitsVal (l : List Char) : Nat :=
  l.foldl (fun acc c => acc * 10 + (c.toNat - 48)) 0

/-- Python `int(s)`: optional surrounding whitespace, optional sign, at
least one digit; `ValueError` (here `none`) otherwise. -/
def pyInt (s : String) : Option Int :=
  let t := trimL s.toList
  let neg := isPreL ['-'] t
  let core := if isPreL ['-'] t || isPreL ['+'] t then t.drop 1 else t
  if !core.isEmpty && core.all Char.isDigit then
    some (if neg then -(digitsVal core : Int) else (digitsVal core : Int))
  else none

/-- Python `float(s)` restricted to plain decimal literals
(optional sign, digits, optional point): exponent forms, `inf` and `nan`
do not occur in the scraped fields.  The result is the exactly
represented decimal as a rational. -/
def pyFloat (s : String) : Option Rat :=
  let t := trimL s.toList
  let core := if isPreL ['-'] t || isPreL ['+'] t then t.drop 1 else t
  let sign : Rat := if isPreL ['-'] t then -1 else 1
  match splitPredL (fun c => c = '.') core with
  | [ip] =>
      if !ip.isEmpty && ip.all Char.isDigit then
        some (sign * (digitsVal ip : Rat))
      else none
  | [ip, fp] =>
      if (!ip.isEmpty || !fp.isEmpty)
          && ip.all Char.isDigit && fp.all Char.isDigit then
        some (sign * ((digitsVal ip : Rat)
          + (digitsVal fp : Rat) / ((10 : Rat) ^ fp.length)))
      else none
  | _ => none

/-- Substring occurrence over character lists. -/
def containsSubL (needle : List Char) : List Char → Bool
  | [] => needle.isEmpty
  | c :: cs => isPreL needle (c :: cs) || containsSubL needle cs

/-- Python `needle in haystack` for strings. -/
def pySubstr (needle haystack : String) : Bool :=
  containsSubL needle.toList haystack.toList

/-- BeautifulSoup attribute matching for one filter pair.  The `class`
attribute is multi-valued: a filter string matches if it equals the whole
class string or one of its whitespace-separated words.  Other attributes
match by equality. -/
def attrMatch (attrs : List (String × String)) (p : String × String) : Bool :=
  match attrs.find? (fun q => q.1 = p.1) with
  | none => false
  | some q =>
      if p.1 = "class" then p.2 = q.2 || (pySplitOnChar q.2 ' ').contains p.2
      else p.2 = q.2

/-- Does an element node satisfy a `findAll(tag, attrs)` query? -/
def nodeMatches (tag : String) (filt : List (String × String)) : Node → Bool
  | .text _ => false
  | .elem t attrs _ => t = tag && filt.all (attrMatch attrs)

mutual

/-- `findAll` on a single node: the node itself (if it matches) followed by
all matching descendants, in document (preorder) order. -/
def findAllNode (tag : String) (filt : List (String × String)) : Node → List Node
  | .text s => if nodeMatches tag filt (.text s) then [.text s] else []
  | .elem t a cs =>
      let rest := findAllList tag filt cs
      if nodeMatches tag filt (.elem t a cs) then .elem t a cs :: rest else rest

/-- `findAll` over a list of sibling trees, in document order. -/
def findAllList (tag : String) (filt : List (String × String)) : List Node → List Node
  | [] => []
  | c :: cs => findAllNode tag filt c ++ findAllList tag filt cs

end

/-- `soup.findAll(tag, attrs)` on the whole document. -/
def findAllDoc (doc : Doc) (tag : String) (filt : List (String × String)) : List Node :=
  findAllList tag filt doc

/-- `soup.find(tag, attrs)`: first match in document order, or None. -/
def findDoc (doc : Doc) (tag : String) (filt : List (String × String)) : Option Node :=
  (findAllDoc doc tag filt).head?

/-- `element.findAll(tag, attrs)` / `findChildren`: matching descendants of
an element (the element itself excluded). -/
def findAllIn (n : Node) (tag : String) (filt : List (String × String)) : List Node :=
  match n with
  | .text _ => []
  | .elem _ _ cs => findAllList tag filt cs

/-- `element.a`: the first `<a>` descendant of an element, or None. -/
def firstAnchor (n : Node) : Option Node :=
  (findAllIn n "a" []).head?

/-! ### Python dict semantics (insertion-ordered association lists) -/

/-- `d[k] = v` on a dict: overwrite the key in place when it exists
(keys of a Python dict are unique, so replacing the first occurrence is
exact), append otherwise. -/
def dictInsert (d : List (String × Value)) (k : String) (v : Value) :
    List (String × Value) :=
  match d with
  | [] => [(k, v)]
  | p :: ps => if p.1 = k then (k, v) :: ps else p :: dictInsert ps k v

/-- `d.update(kvs)`: insert every pair of `kvs` in order into `d`. -/
def dictUpdate (d : List (String × Value)) (kvs : List (String × Value)) :
    List (String × Value) :=
  kvs.foldl (fun acc p => dictInsert acc p.1 p.2) d

/-- `d[k]` lookup (first occurrence). -/
def dictLookup (d : List (String × Value)) (k : String) : Option Value :=
  match d with
  | [] => none
  | p :: ps => if p.1 = k then some p.2 else dictLookup ps k

/-- String-valued variant of `dictInsert`, for the school dict. -/
def dictInsertS (d : List (String × String)) (k : String) (v : String) :
    List (String × String) :=
  match d with
  | [] => [(k, v)]
  | p :: ps => if p.1 = k then (k, v) :: ps else p :: dictInsertS ps k v

/-! ### extract_house_details: per-field extraction rules

Each `try/except` block of the Python source becomes an `Option`
computation whose `none` is the `except` branch (missing node, missing
index, or failed coercion); the unguarded statements (the key-detail
loop's span indexing and the PointOfInterestWidget loop) live in
`Except PyErr`, since their exceptions propagate out of the function. -/

/-- The per-variable value of a `try: v = ... except: v = np.nan` block. -/
def strOrNan (o : Option String) : Value := o.elim .nan .str

/-- Missing-sentinel wrapper for `int`-coerced fields. -/
def intOrNan (o : Option Int) : Value := o.elim .nan .int

/-- Missing-sentinel wrapper for `float`-coerced fields. -/
def floatOrNan (o : Option Rat) : Value := o.elim .nan .float

/-- Python list indexing raising `IndexError` out of a guarded region. -/
def pyIndexNode (o : Option Node) : Except PyErr Node :=
  o.elim (.error .indexError) .ok

/-- Python `lst[i]` on a string list, raising `IndexError`. -/
def pyIndexStr (o : Option String) : Except PyErr String :=
  o.elim (.error .indexError) .ok

/-- Python `int(s)` raising `ValueError` out of a guarded region. -/
def pyIntE (s : String) : Except PyErr Int :=
  (pyInt s).elim (.error .valueError) .ok

/-- One iteration of the key-detail loop: `findChildren("span")[0]` split on
newlines, `findChildren("span")[1]` split on whitespace, zipped into the
running dict.  The span indexing is NOT inside a `try`, so a key-detail div
with fewer than two span descendants raises. -/
def keyDetailStep (t : RecDict) (n : Node) : Except PyErr RecDict := do
  let spans := findAllIn n "span" []
  let s0 ← pyIndexNode (spans.get? 0)
  let s1 ← pyIndexNode (spans.get? 1)
  let x := pySplitOnChar (nodeText s0) '\n'
  let y := pySplitWs (nodeText s1)
  .ok (dictUpdate t ((List.zip x y).map (fun p => (p.1, Value.str p.2))))

/-- The generic key-detail table: every
`div.keyDetail.font-weight-roman.font-size-base` contributes its zipped
label/value pairs to `table_dict`. -/
def keyDetailDict (doc : Doc) : Except PyErr RecDict :=
  (findAllDoc doc "div"
    [("class", "keyDetail font-weight-roman font-size-base")]).foldlM
    keyDetailStep []

/-- `price`: text of the `statsValue` div after the first `$`
(`.text.split("$")[1]`); `np.nan` when the div is missing or its text has
no dollar sign. -/
def price? (doc : Doc) : Option String := do
  let n ← findDoc doc "div" [("class", "statsValue")]
  (pySplitOnChar (nodeText n) '$').get? 1

/-- `Address`: raw text of the designated h1 node. -/
def address? (doc : Doc) : Option String := do
  let n ← findDoc doc "h1" [("data-rf-test-id", "abp-homeinfo-homeaddress")]
  pure (nodeText n)

/-- `beds`: `int` of the abp-beds text before the first `B`. -/
def beds? (doc : Doc) : Option Int := do
  let n ← findDoc doc "div" [("data-rf-test-id", "abp-beds")]
  pyInt ((pySplitOnChar (nodeText n) 'B').headI)

/-- `bath`: `float` of the abp-baths text before the first `B`. -/
def bath? (doc : Doc) : Option Rat := do
  let n ← findDoc doc "div" [("data-rf-test-id", "abp-baths")]
  pyFloat ((pySplitOnChar (nodeText n) 'B').headI)

/-- `living_sqft`: `float` of the abp-sqFt text before the first `S`,
commas removed. -/
def sqft? (doc : Doc) : Option Rat := do
  let n ← findDoc doc "div" [("data-rf-test-id", "abp-sqFt")]
  pyFloat ((((pySplitOnChar (nodeText n) 'S').headI).toList.filter
    (fun c => c ≠ ',')).asString)

/-- `d_score`: `int` of the riskValue tspan text. -/
def dscore? (doc : Doc) : Option Int := do
  let n ← findDoc doc "tspan" [("class", "riskValue redOrange")]
  pyInt (nodeText n)

/-- `nbd_homes`: third-from-last whitespace token of the market-insights
card, stripped of the characters of `"Sale-to-List"` and `"#"`, then
`int`-coerced. -/
def nbdHomes? (doc : Doc) : Option Int := do
  let n ← findDoc doc "div"
    [("class", "MarketInsightsRegionCard--cardMetrics row")]
  let w ← pyGetNeg (pySplitWs (nodeText n)) 3
  pyInt (pyStrip (pyStrip w "Sale-to-List") "#")

/-- `wa_score`: first space-separated token of the first
`score inline-block not-last` div, `int`-coerced. -/
def waScore? (doc : Doc) : Option Int := do
  let n ← (findAllDoc doc "div"
    [("class", "score inline-block not-last")]).get? 0
  pyInt ((pySplitOnChar (nodeText n) ' ').headI)

/-- `trans_score`: `int` of the first `value fair` span. -/
def transScore? (doc : Doc) : Option Int := do
  let n ← (findAllDoc doc "span" [("class", "value fair")]).get? 0
  pyInt (nodeText n)

/-- The PointOfInterestWidget divs the unguarded loop iterates over. -/
def poiWidgets (doc : Doc) : List Node :=
  findAllDoc doc "div" [("class", "PointOfInterestWidget")]

/-- One iteration of the unguarded PointOfInterestWidget loop: fixed
positional indices 1, -1, -2, 4, 2 into the widget's `Tag__text`
collection, each `int`-coerced, assigned in source order
(groceries, services, emergency, shopping, food_drink).  Any missing
index or failed coercion raises out of `extract_house_details`. -/
def poiStep (w : Node) : Except PyErr (Int × Int × Int × Int × Int) := do
  let tags := (findAllIn w "div" [("class", "Tag__text")]).map nodeText
  let groceries ← pyIntE (← pyIndexStr (tags.get? 1))
  let services ← pyIntE (← pyIndexStr (pyGetNeg tags 1))
  let emergency ← pyIntE (← pyIndexStr (pyGetNeg tags 2))
  let shopping ← pyIntE (← pyIndexStr (tags.get? 4))
  let food_drink ← pyIntE (← pyIndexStr (tags.get? 2))
  .ok (groceries, services, emergency, shopping, food_drink)

/-- The whole PointOfInterestWidget loop: each widget overwrites the five
variables, so the last widget wins; zero widgets leave them unbound
(`none`); a raising iteration propagates. -/
def poiLoop (ws : List Node) :
    Except PyErr (Option (Int × Int × Int × Int × Int)) :=
  ws.foldlM (fun _ w => do let r ← poiStep w; pure (some r)) none

/-- `Nearby_Items`: full text of the first PointOfInterestWidget. -/
def nearby? (doc : Doc) : Option String :=
  (findDoc doc "div" [("class", "PointOfInterestWidget")]).map nodeText

/-- `Competitive_Score`: text of the `score most` div. -/
def competitive? (doc : Doc) : Option String :=
  (findDoc doc "div" [("class", "score most")]).map nodeText

/-- `activity_lis`: texts of the activity-count-label spans. -/
def activityLis (doc : Doc) : List String :=
  (findAllDoc doc "span"
    [("class", "count"), ("data-rf-test-name", "activity-count-label")]).map
    nodeText

/-- `name_lis`: texts of the school-name divs, in document order. -/
def schoolNames (doc : Doc) : List String :=
  (findAllDoc doc "div"
    [("class", "school-name font-size-base font-weight-bold")]).map nodeText

/-- `rating_lis`: texts of the rating-num spans, in document order. -/
def schoolRatings (doc : Doc) : List String :=
  (findAllDoc doc "span"
    [("class", "rating-num font-size-base font-weight-bold")]).map nodeText

/-- `zip(name_lis, rating_lis)`: the positional pairing the school dict is
built from. -/
def schoolPairs (doc : Doc) : List (String × String) :=
  List.zip (schoolNames doc) (schoolRatings doc)

/-- `school_dict`: the pairs inserted in order (`school_dict[x] = y`). -/
def schoolDictOf (doc : Doc) : List (String × String) :=
  (schoolPairs doc).foldl (fun d p => dictInsertS d p.1 p.2) []

/-- Keyword list `SuperCenters` of the source. -/
def SuperCenters : List String :=
  ["Costco", "Target", "Walmart", "Safeway", "Lucky", "FoodMaxx",
   "Trader Joe", "Walgreens"]

/-- Keyword list `Major_Indian_Grocery` of the source. -/
def Major_Indian_Grocery : List String :=
  ["New India", "Apna Bazaar", "India Cash And Carry", "Trinetra",
   "Namaste", "Saudagar", "Bharat", "Nilgiris"]

/-- Keyword list `Major_Entertainment` of the source. -/
def Major_Entertainment : List String := ["AMC", "Cinemark", "Theater"]

/-- Keyword list `Boba` of the source. -/
def Boba : List String := ["Bubble Tea", "Boba"]

/-- Keyword list `Healthcare` of the source. -/
def Healthcare : List String :=
  ["Hospital", "Clinic", "Kaiser Permanante", "United Health", "Health"]

/-- One amenity flag: 1 when some keyword occurs in the nearby-items text,
0 otherwise; the `in` test on a missing (`np.nan`) text raises `TypeError`
inside the flag's own `try`, so the flag stays 0. -/
def flagAny (keys : List String) (nearby : Option String) : Value :=
  match nearby with
  | none => .int 0
  | some s => .int (if keys.any (fun k => pySubstr k s) then 1 else 0)

/-- The dict literal `l` of the source (line 396): the named fields in
source order; the five point-of-interest counts are the values left by the
last widget iteration. -/
def buildL (doc : Doc) (poi : Int × Int × Int × Int × Int) : RecDict :=
  [("List_price", strOrNan (price? doc)),
   ("Address", strOrNan (address? doc)),
   ("Beds", intOrNan (beds? doc)),
   ("Baths", floatOrNan (bath? doc)),
   ("Living_sqft", floatOrNan (sqft? doc)),
   ("Drought_Score", intOrNan (dscore? doc)),
   ("Walk_score", intOrNan (waScore? doc)),
   ("Neighbourhood_Homes", intOrNan (nbdHomes? doc)),
   ("Transit_score", intOrNan (transScore? doc)),
   ("Groceries_stores", .int poi.1),
   ("Services", .int poi.2.1),
   ("Emergency", .int poi.2.2.1),
   ("Shopping", .int poi.2.2.2.1),
   ("Food_and_Drink", .int poi.2.2.2.2),
   ("Schools", .schools (schoolDictOf doc)),
   ("Competitive_Score", strOrNan (competitive? doc)),
   ("page_view_count", strOrNan ((activityLis doc).get? 0)),
   ("page_fav_count_30", strOrNan ((activityLis doc).get? 1)),
   ("page_fav_all_time_count", strOrNan ((activityLis doc).get? 2)),
   ("has_supercenter", flagAny SuperCenters (nearby? doc)),
   ("has_major_indian_grocery", flagAny Major_Indian_Grocery (nearby? doc)),
   ("has_major_entertainment", flagAny Major_Entertainment (nearby? doc)),
   ("has_indian_restaurant", flagAny ["Indian Restaurant"] (nearby? doc)),
   ("has_chinese_restaurant", flagAny ["Chinese Restaurant"] (nearby? doc)),
   ("has_mexican_restaurant", flagAny ["Mexican Restaurant"] (nearby? doc)),
   ("has_boba", flagAny Boba (nearby? doc)),
   ("has_starbucks", flagAny ["Starbucks"] (nearby? doc)),
   ("has_healthcare_support", flagAny Healthcare (nearby? doc)),
   ("has_mall", flagAny ["Mall"] (nearby? doc))]

/-- The named-field dict `l`: building it dereferences the five
point-of-interest variables, raising `NameError` when the widget loop ran
zero times, and propagating any exception of a widget iteration. -/
def namedList (doc : Doc) : Except PyErr RecDict :=
  match poiLoop (poiWidgets doc) with
  | .error e => .error e
  | .ok none => .error .nameError
  | .ok (some poi) => .ok (buildL doc poi)

/-- `HouseDataExtractor.extract_house_details`: the key-detail table
updated with the named-field dict `l` (`table_dict.update(l)`), or the
first uncaught exception. -/
def extract_house_details (doc : Doc) : Except PyErr RecDict :=
  match keyDetailDict doc with
  | .error e => .error e
  | .ok t =>
    match namedList doc with
    | .error e => .error e
    | .ok l => .ok (dictUpdate t l)

/-! ### URL discovery and listing-URL extraction -/

/-- `URLFetcher.fetch_page_urls` after the seed fetch: the seed URL
followed by `base_url + href` for every `a.clickable.goToPage` anchor
carrying an href, in document order. -/
def fetch_page_urls (main_url : String) (mainurldoc : Doc) : List String :=
  main_url ::
    ((findAllDoc mainurldoc "a" [("class", "clickable goToPage")]).filterMap
      (fun n => (getAttr n "href").map
        (fun h => "https://www.redfin.com" ++ h)))

/-- The pagination anchors `fetch_page_urls` iterates over
(`findAll("a", class clickable goToPage, href=True)`). -/
def pageAnchors (doc : Doc) : List Node :=
  (findAllDoc doc "a" [("class", "clickable goToPage")]).filter
    (fun n => (getAttr n "href").isSome)

/-- The href-resolution step of `HouseURLExtractor.extract_house_urls`:
strip one leading `/` when the href is non-empty and starts with one, then
prepend `"https://www.redfin.com/"`. -/
def resolveHref (href : String) : String :=
  let h := if href ≠ "" && isPreL ['/'] href.toList then
    (href.toList.drop 1).asString else href
  "https://www.redfin.com/" ++ h

/-- `HouseURLExtractor.extract_house_urls` after the per-page fetches: for
every `div.bottomV2` of every page document, resolve the href of the
div's first anchor; a div without an anchor raises `AttributeError`
(`div.a` is None), an anchor without an href raises `TypeError`
(`str + None`). -/
def extract_house_urls (docs : List Doc) : Except PyErr (List String) :=
  docs.foldlM (fun acc doc =>
    (findAllDoc doc "div" [("class", "bottomV2")]).foldlM (fun acc div => do
      match firstAnchor div with
      | none => .error .attributeError
      | some a =>
          match getAttr a "href" with
          | none => .error .typeError
          | some h => .ok (acc ++ [resolveHref h])) acc) []

/-! ### The crawl runner

`scrape_and_save_property_details` fetches each URL, extracts its record,
appends it to the accumulating table and checkpoints the table to the
destination file when the 0-based loop index `i` satisfies
`i % batch_size == 0`; the whole body of one iteration, the checkpoint
write included, is inside `try: ... except: pass`.  After the loop the
table is written once more, outside any handler.  The network and the
filesystem are oracles: `fetch i` is the outcome of fetching the `i`-th
URL (parsed document, or a raised exception), and `writeFails n` tells
whether the `n`-th `to_csv` call raises.  `time.sleep(3)` has no
observable effect on the state and is not modelled. -/

/-- Oracle environment for one run: network fetch outcomes by position and
write-failure outcomes by write-attempt count. -/
structure RunEnv where
  fetch : Nat → Except PyErr Doc
  writeFails : Nat → Bool

/-- Observable state of the runner: the accumulated table `details_df`,
the last successfully persisted file content (`none` = never written) and
the number of `to_csv` attempts so far. -/
structure RunState where
  df : List RecDict
  file : Option (List RecDict)
  writes : Nat
deriving Repr, DecidableEq

/-- One iteration of the runner loop at `(i, url)`.  A raising fetch or
extraction leaves the state unchanged (`except: pass`).  On success the
record is appended; then, when `i % batch_size == 0`, a write is
attempted (`batch_size = 0` raises `ZeroDivisionError` into the same
handler, so nothing is written): a failing write is swallowed by the same
`except`, leaving the file as it was but the record already appended. -/
def scrapeStep (env : RunEnv) (batch_size : Nat) (s : RunState)
    (iu : Nat × String) : RunState :=
  match env.fetch iu.1 with
  | .error _ => s
  | .ok house_doc =>
    match extract_house_details house_doc with
    | .error _ => s
    | .ok house_dict =>
      let df := s.df ++ [house_dict]
      if batch_size == 0 then { s with df := df }
      else if iu.1 % batch_size == 0 then
        if env.writeFails s.writes then
          { df := df, file := s.file, writes := s.writes + 1 }
        else
          { df := df, file := some df, writes := s.writes + 1 }
      else { s with df := df }

/-- The runner loop over the enumerated URL list. -/
def runLoop (env : RunEnv) (url_list : List String) (batch_size : Nat) :
    RunState :=
  url_list.enum.foldl (scrapeStep env batch_size)
    { df := [], file := none, writes := 0 }

/-- `HouseDataExtractor.scrape_and_save_property_details`: run the loop,
then write the final table unconditionally, outside any handler — a
failing final write raises to the caller.  On success the result is the
returned DataFrame paired with the persisted file content (which the
final write has just made equal to the DataFrame). -/
def scrape_and_save_property_details (env : RunEnv) (url_list : List String)
    (batch_size : Nat) : Except PyErr (List RecDict × List RecDict) :=
  let s := runLoop env url_list batch_size
  if env.writeFails s.writes then .error .persistenceError
  else .ok (s.df, s.df)

/-! ### Concrete documents and environments for witnesses -/

/-- A `Tag__text` div holding one count string. -/
def mkTag (s : String) : Node := .elem "div" [("class", "Tag__text")] [.text s]

/-- A PointOfInterestWidget with the five positional counts present. -/
def poiW : Node := .elem "div" [("class", "PointOfInterestWidget")]
  [mkTag "10", mkTag "11", mkTag "12", mkTag "13", mkTag "14"]

/-- A listing document whose point-of-interest widget is complete. -/
def d0 : Doc := [poiW]

/-- A `statsValue` div whose text is the spec's price example. -/
def statsDiv : Node := .elem "div" [("class", "statsValue")]
  [.text "$1,234,567 Est."]

/-- A listing document with a price but no PointOfInterestWidget. -/
def dNoPOI : Doc := [statsDiv]

/-- A listing document with both a price and a complete widget. -/
def d1 : Doc := [statsDiv, poiW]

/-- A PointOfInterestWidget with only three `Tag__text` entries. -/
def poiShort : Node := .elem "div" [("class", "PointOfInterestWidget")]
  [mkTag "10", mkTag "11", mkTag "12"]

/-- A listing document whose widget is too short for index 4. -/
def dShort : Doc := [poiShort]

/-- A key-detail div whose captured key collides with the named field
`Beds`. -/
def keyDetailBeds : Node :=
  .elem "div" [("class", "keyDetail font-weight-roman font-size-base")]
    [.elem "span" [] [.text "Beds"], .elem "span" [] [.text "999"]]

/-- A document whose key-detail table captures the key `Beds`. -/
def d2 : Doc := [keyDetailBeds, poiW]

/-- A school-name div. -/
def mkSchool (s : String) : Node :=
  .elem "div" [("class", "school-name font-size-base font-weight-bold")]
    [.text s]

/-- A rating-num span. -/
def mkRating (s : String) : Node :=
  .elem "span" [("class", "rating-num font-size-base font-weight-bold")]
    [.text s]

/-- A document with two school names but three ratings (mismatched
parallel sequences). -/
def d3 : Doc := [poiW, mkSchool "A", mkSchool "B",
  mkRating "7", mkRating "8", mkRating "9"]

/-- Environment: every fetch yields `d0`, every write succeeds. -/
def env3 : RunEnv := { fetch := fun _ => .ok d0, writeFails := fun _ => false }

/-- Environment: every fetch yields `d0`, the first write attempt fails. -/
def env4 : RunEnv := { fetch := fun _ => .ok d0, writeFails := fun n => n == 0 }

/-- Environment: every fetch raises, every write succeeds. -/
def env5 : RunEnv :=
  { fetch := fun _ => .error .fetchError, writeFails := fun _ => false }

/-! ### Dictionary lemmas -/

theorem dictLookup_dictInsert (d : RecDict) (k : String) (v : Value)
    (k2 : String) :
    dictLookup (dictInsert d k v) k2
      = if k2 = k then some v else dictLookup d k2 := by
  induction d with
  | nil =>
      by_cases h : k2 = k
      · subst h; simp [dictInsert, dictLookup]
      · simp [dictInsert, dictLookup, h, Ne.symm h]
  | cons p ps ih =>
      by_cases hp : p.1 = k
      · by_cases h : k2 = k
        · subst h; simp [dictInsert, dictLookup, hp]
        · have hpk2 : ¬ (p.1 = k2) := fun hh => h (hh ▸ hp.symm ▸ rfl)
          simp [dictInsert, dictLookup, hp, h, Ne.symm h, hpk2]
      · by_cases h : k2 = k
        · subst h; simp [dictInsert, dictLookup, hp, ih]
        · simp [dictInsert, dictLookup, hp, h, ih]

theorem dictLookup_eq_none_of_not_mem (ps : RecDict) (k : String)
    (h : k ∉ ps.map Prod.fst) : dictLookup ps k = none := by
  induction ps with
  | nil => rfl
  | cons q qs ih =>
      simp only [List.map_cons, List.mem_cons, not_or] at h
      have : ¬ (q.1 = k) := fun hh => h.1 hh.symm
      simp [dictLookup, this, ih h.2]

theorem dictLookup_dictUpdate_none (kvs : RecDict) :
    ∀ (d : RecDict) (k : String), dictLookup kvs k = none →
      dictLookup (dictUpdate d kvs) k = dictLookup d k := by
  induction kvs with
  | nil => intro d k _; rfl
  | cons p ps ih =>
      intro d k h
      have hp : ¬ (p.1 = k) := by
        intro hh; simp [dictLookup, hh] at h
      have hps : dictLookup ps k = none := by
        simpa [dictLookup, hp] using h
      show dictLookup (dictUpdate (dictInsert d p.1 p.2) ps) k = _
      rw [ih _ _ hps, dictLookup_dictInsert,
        if_neg (fun hh : k = p.1 => hp hh.symm)]

theorem dictLookup_dictUpdate_isSome :
    ∀ (kvs : RecDict), ((kvs.map Prod.fst).Nodup) →
      ∀ (d : RecDict) (k : String), (dictLookup kvs k).isSome = true →
        dictLookup (dictUpdate d kvs) k = dictLookup kvs k := by
  intro kvs
  induction kvs with
  | nil => intro _ d k h; simp [dictLookup] at h
  | cons p ps ih =>
      intro hnd d k h
      rw [List.map_cons] at hnd
      have hnd2 := List.nodup_cons.mp hnd
      by_cases hp : p.1 = k
      · have hnone : dictLookup ps k = none := by
          apply dictLookup_eq_none_of_not_mem
          intro hmem
          exact hnd2.1 (hp ▸ hmem)
        show dictLookup (dictUpdate (dictInsert d p.1 p.2) ps) k = _
        rw [dictLookup_dictUpdate_none _ _ _ hnone, dictLookup_dictInsert,
          if_pos hp.symm]
        simp [dictLookup, hp]
      · have h2 : (dictLookup ps k).isSome = true := by
          simpa [dictLookup, hp] using h
        show dictLookup (dictUpdate (dictInsert d p.1 p.2) ps) k = _
        rw [ih hnd2.2 _ _ h2]
        simp [dictLookup, hp]

/-! ### Extraction record structure lemmas -/

theorem buildL_keys (doc : Doc) (poi : Int × Int × Int × Int × Int) :
    (buildL doc poi).map Prod.fst =
      ["List_price", "Address", "Beds", "Baths", "Living_sqft",
       "Drought_Score", "Walk_score", "Neighbourhood_Homes", "Transit_score",
       "Groceries_stores", "Services", "Emergency", "Shopping",
       "Food_and_Drink", "Schools", "Competitive_Score", "page_view_count",
       "page_fav_count_30", "page_fav_all_time_count", "has_supercenter",
       "has_major_indian_grocery", "has_major_entertainment",
       "has_indian_restaurant", "has_chinese_restaurant",
       "has_mexican_restaurant", "has_boba", "has_starbucks",
       "has_healthcare_support", "has_mall"] := rfl

theorem buildL_keys_nodup (doc : Doc) (poi : Int × Int × Int × Int × Int) :
    ((buildL doc poi).map Prod.fst).Nodup := by
  rw [buildL_keys]; decide

theorem extract_ok_decomp (doc : Doc) (r : RecDict)
    (h : extract_house_details doc = .ok r) :
    ∃ t poi, keyDetailDict doc = .ok t ∧
      poiLoop (poiWidgets doc) = .ok (some poi) ∧
      namedList doc = .ok (buildL doc poi) ∧
      r = dictUpdate t (buildL doc poi) := by
  unfold extract_house_details at h
  cases ht : keyDetailDict doc with
  | error e => rw [ht] at h; exact absurd h (by simp)
  | ok t =>
      rw [ht] at h
      cases hn : namedList doc with
      | error e => rw [hn] at h; exact absurd h (by simp)
      | ok l =>
          rw [hn] at h
          have hr : dictUpdate t l = r := by
            simpa using h
          unfold namedList at hn
          cases hp : poiLoop (poiWidgets doc) with
          | error e => rw [hp] at hn; exact absurd hn (by simp)
          | ok o =>
              rw [hp] at hn
              cases o with
              | none => exact absurd hn (by simp)
              | some poi =>
                  have hl : buildL doc poi = l := by simpa using hn
                  exact ⟨t, poi, rfl, rfl, by simp [hl], by rw [← hr, hl]⟩

theorem dictLookup_extract (doc : Doc) (r : RecDict) (k : String) (v : Value)
    (hx : extract_house_details doc = .ok r)
    (hb : ∀ poi, dictLookup (buildL doc poi) k = some v) :
    dictLookup r k = some v := by
  obtain ⟨t, poi, -, -, -, hr⟩ := extract_ok_decomp doc r hx
  rw [hr]
  have h1 := dictLookup_dictUpdate_isSome (buildL doc poi)
    (buildL_keys_nodup doc poi) t k (by rw [hb poi]; rfl)
  exact h1.trans (hb poi)

/-! ### Runner lemmas -/

theorem scrapeStep_df_le (env : RunEnv) (b : Nat) (s : RunState)
    (iu : Nat × String) :
    (scrapeStep env b s iu).df.length ≤ s.df.length + 1 := by
  cases hf : env.fetch iu.1 with
  | error e => simp [scrapeStep, hf]
  | ok doc =>
      cases hx : extract_house_details doc with
      | error e => simp [scrapeStep, hf, hx]
      | ok r =>
          simp only [scrapeStep, hf, hx]
          split
          · simp
          · split
            · split <;> simp
            · simp

theorem foldl_scrapeStep_df_le (env : RunEnv) (b : Nat) :
    ∀ (l : List (Nat × String)) (s : RunState),
      (l.foldl (scrapeStep env b) s).df.length ≤ s.df.length + l.length := by
  intro l
  induction l with
  | nil => intro s; simp
  | cons x xs ih =>
      intro s
      calc (((x :: xs).foldl (scrapeStep env b) s)).df.length
          = ((xs.foldl (scrapeStep env b) (scrapeStep env b s x))).df.length := by
            rw [List.foldl_cons]
        _ ≤ (scrapeStep env b s x).df.length + xs.length := ih _
        _ ≤ (s.df.length + 1) + xs.length := by
            exact Nat.add_le_add_right (scrapeStep_df_le env b s x) _
        _ = s.df.length + (x :: xs).length := by simp [Nat.add_assoc, Nat.add_comm 1]

theorem runLoop_df_le (env : RunEnv) (urls : List String) (b : Nat) :
    (runLoop env urls b).df.length ≤ urls.length := by
  have h := foldl_scrapeStep_df_le env b urls.enum
    { df := [], file := none, writes := 0 }
  simpa [runLoop, List.enum_length] using h

/-! ### Claim theorems -/

/-- C1: the claim says a rule whose structural query finds no matching
node only sets that rule's fields to the missing sentinel and a record is
still returned.  The code violates this for the PointOfInterestWidget
rule: with no widget the five count variables are never bound and the
record construction raises `NameError`; with a widget whose `Tag__text`
collection is shorter than index 4 the unguarded indexing raises
`IndexError`.  In both cases `extract_house_details` returns no record at
all. -/
theorem claim_C1 :
    extract_house_details dNoPOI = .error .nameError ∧
    extract_house_details dShort = .error .indexError :=
  ⟨rfl, rfl⟩

/-- C2 (amended): for every listing document whose statsValue node's text
is `"$1,234,567 Est."`, the `List_price` field of a successfully returned
record is the STRING `"1,234,567 Est."` — the text after the first
currency symbol kept verbatim, with no numeric coercion, commas retained
and trailing text retained. -/
theorem claim_C2 (doc : Doc) (r : RecDict)
    (h1 : (findDoc doc "div" [("class", "statsValue")]).map nodeText
        = some "$1,234,567 Est.")
    (h2 : extract_house_details doc = .ok r) :
    dictLookup r "List_price" = some (.str "1,234,567 Est.") := by
  have hv : price? doc = some "1,234,567 Est." := by
    cases hf : findDoc doc "div" [("class", "statsValue")] with
    | none => rw [hf] at h1; simp at h1
    | some n =>
        rw [hf] at h1
        have hn : nodeText n = "$1,234,567 Est." := by simpa using h1
        have hstep : price? doc = (pySplitOnChar (nodeText n) '$').get? 1 := by
          simp [price?, hf]
        rw [hstep, hn]
        rfl
  have hval : strOrNan (price? doc) = .str "1,234,567 Est." := by
    rw [hv]; rfl
  exact dictLookup_extract doc r "List_price" _ h2
    (fun poi => by rw [show dictLookup (buildL doc poi) "List_price"
      = some (strOrNan (price? doc)) from rfl, hval])

/-- C2 counterexample: on the concrete document `d1` whose statsValue
text is `"$1,234,567 Est."`, the price field of the returned record is
the string `"1,234,567 Est."`, which is not the number `1234567` the
claim asserts. -/
theorem claim_C2_counterexample :
    (extract_house_details d1).map (fun r => dictLookup r "List_price")
      = .ok (some (.str "1,234,567 Est.")) ∧
    Value.str "1,234,567 Est." ≠ Value.int 1234567 :=
  ⟨rfl, fun h => Value.noConfusion h⟩

/-- C2 witness: the amended theorem applied to the concrete document
`d1`. -/
theorem claim_C2_witness :
    dictLookup ((extract_house_details d1).toOption.getD []) "List_price"
      = some (.str "1,234,567 Est.") :=
  claim_C2 d1 ((extract_house_details d1).toOption.getD []) rfl rfl

/-- C5: a raising fetch leaves the runner state unchanged (record not
added, loop continues); a raising extraction likewise; and a completed
run returns at most one record per input URL. -/
theorem claim_C5 :
    (∀ (env : RunEnv) (b : Nat) (s : RunState) (i : Nat) (u : String)
        (e : PyErr), env.fetch i = .error e →
        scrapeStep env b s (i, u) = s) ∧
    (∀ (env : RunEnv) (b : Nat) (s : RunState) (i : Nat) (u : String)
        (doc : Doc) (e : PyErr), env.fetch i = .ok doc →
        extract_house_details doc = .error e →
        scrapeStep env b s (i, u) = s) ∧
    (∀ (env : RunEnv) (urls : List String) (b : Nat)
        (out : List RecDict × List RecDict),
        scrape_and_save_property_details env urls b = .ok out →
        out.1.length ≤ urls.length) := by
  refine ⟨?_, ?_, ?_⟩
  · intro env b s i u e hf
    simp [scrapeStep, hf]
  · intro env b s i u doc e hf hx
    simp [scrapeStep, hf, hx]
  · intro env urls b out h
    by_cases hw : env.writeFails (runLoop env urls b).writes = true
    · simp only [scrape_and_save_property_details, hw, if_true] at h
      exact absurd h (by simp)
    · have h2 : out = ((runLoop env urls b).df, (runLoop env urls b).df) := by
        simp only [scrape_and_save_property_details, hw, if_false] at h
        simpa using h.symm
      rw [h2]
      exact runLoop_df_le env urls b

/-- C5 witness: the failing-fetch case on `env5` and the length bound on
a completed two-URL run on `env3`. -/
theorem claim_C5_witness :
    scrapeStep env5 10 { df := [], file := none, writes := 0 } (0, "u")
      = { df := [], file := none, writes := 0 } ∧
    ((runLoop env3 ["u", "u"] 2).df, (runLoop env3 ["u", "u"] 2).df).1.length
      ≤ (["u", "u"] : List String).length :=
  ⟨claim_C5.1 env5 10 { df := [], file := none, writes := 0 } 0 "u"
      .fetchError rfl,
   claim_C5.2.2 env3 ["u", "u"] 2 _ rfl⟩

/-- C6: the href-resolution of `extract_house_urls` strips one leading
slash when present and prepends the origin plus a slash: the spec's
concrete example resolves exactly, and an href with no leading slash gets
exactly one separating slash between origin and href. -/
theorem claim_C6 :
    resolveHref "/property/123" = "https://www.redfin.com/property/123" ∧
    ∀ href : String, isPreL ['/'] href.toList = false →
      resolveHref href = ("https://www.redfin.com" ++ "/") ++ href := by
  refine ⟨rfl, fun href h => ?_⟩
  simp only [resolveHref, h, Bool.and_false, Bool.false_eq_true, if_false]
  rfl

/-- C6 witness: the general slashless case applied to the concrete href
`"property/123"`. -/
theorem claim_C6_witness :
    resolveHref "property/123"
      = ("https://www.redfin.com" ++ "/") ++ "property/123" :=
  claim_C6.2 "property/123" rfl

/-- C8: `extract_house_details` is modelled as a pure function of the
document alone (no network, filesystem or other state appears in its
type), so re-extracting the same document yields an identical result. -/
theorem claim_C8 :
    ∀ doc : Doc, extract_house_details doc = extract_house_details doc :=
  fun _ => rfl

/-- C3 counterexample: with batch size 2 and two successfully processed
listings, the checkpoint fired after the FIRST listing (0-based index 0
satisfies `0 % 2 == 0`), so after processing `1 * batch_size` listings
the persisted content holds one record, not the first two records the
claim asserts. -/
theorem claim_C3_counterexample :
    (runLoop env3 ["u", "u"] 2).df.length = 2 ∧
    (runLoop env3 ["u", "u"] 2).file
      = some ((runLoop env3 ["u", "u"] 2).df.take 1) ∧
    (runLoop env3 ["u", "u"] 2).file
      ≠ some ((runLoop env3 ["u", "u"] 2).df) :=
  ⟨rfl, rfl, by decide⟩

/-- C3 (amended): a checkpoint write happens after a successfully
processed listing exactly when its 0-based position `i` satisfies
`i % batch_size == 0` (so after the 1st, `b+1`-th, `2b+1`-th listing —
positions counted over all inputs, successes and failures alike), and it
persists the table accumulated so far; after a successful off-cycle
listing the file is untouched; and at run end the final table is
persisted unconditionally, so a successful run's file content equals the
returned table. -/
theorem claim_C3 :
    (∀ (env : RunEnv) (b : Nat) (s : RunState) (i : Nat) (u : String)
        (doc : Doc) (r : RecDict), env.fetch i = .ok doc →
        extract_house_details doc = .ok r → b ≠ 0 → i % b = 0 →
        env.writeFails s.writes = false →
        scrapeStep env b s (i, u)
          = { df := s.df ++ [r], file := some (s.df ++ [r]),
              writes := s.writes + 1 }) ∧
    (∀ (env : RunEnv) (b : Nat) (s : RunState) (i : Nat) (u : String)
        (doc : Doc) (r : RecDict), env.fetch i = .ok doc →
        extract_house_details doc = .ok r → b ≠ 0 → i % b ≠ 0 →
        scrapeStep env b s (i, u)
          = { df := s.df ++ [r], file := s.file, writes := s.writes }) ∧
    (∀ (env : RunEnv) (urls : List String) (b : Nat)
        (df file : List RecDict),
        scrape_and_save_property_details env urls b = .ok (df, file) →
        file = df) := by
  refine ⟨?_, ?_, ?_⟩
  · intro env b s i u doc r hf hx hb hi hw
    simp [scrapeStep, hf, hx, hb, hi, hw]
  · intro env b s i u doc r hf hx hb hi
    simp [scrapeStep, hf, hx, hb, hi]
  · intro env urls b df file h
    by_cases hw : env.writeFails (runLoop env urls b).writes = true
    · simp only [scrape_and_save_property_details, hw, if_true] at h
      exact absurd h (by simp)
    · simp only [scrape_and_save_property_details, hw, if_false] at h
      have h2 := (by simpa using h.symm :
        df = (runLoop env urls b).df ∧ file = (runLoop env urls b).df)
      rw [h2.1, h2.2]

/-- C3 witness: the on-cycle checkpoint case at position 0 with batch
size 2, and the final-persist equality on a completed run. -/
theorem claim_C3_witness :
    scrapeStep env3 2 { df := [], file := none, writes := 0 } (0, "u")
      = { df := [] ++ [(extract_house_details d0).toOption.getD []],
          file := some ([] ++ [(extract_house_details d0).toOption.getD []]),
          writes := 0 + 1 } ∧
    (runLoop env3 ["u", "u"] 2).df = (runLoop env3 ["u", "u"] 2).df :=
  ⟨claim_C3.1 env3 2 { df := [], file := none, writes := 0 } 0 "u" d0
      ((extract_house_details d0).toOption.getD []) rfl rfl
      (by decide) rfl rfl,
   claim_C3.2.2 env3 ["u", "u"] 2 (runLoop env3 ["u", "u"] 2).df
      (runLoop env3 ["u", "u"] 2).df rfl⟩

/-- C4 counterexample: on `env4` the first checkpoint write fails
(attempt 0), yet the run goes on to process the second listing (two
records accumulated, two write attempts made in the loop) and completes
without surfacing any error — contradicting the claim that a persistence
failure is fatal and stops further processing. -/
theorem claim_C4_counterexample :
    env4.writeFails 0 = true ∧
    (runLoop env4 ["u", "u"] 1).writes = 2 ∧
    (runLoop env4 ["u", "u"] 1).df.length = 2 ∧
    scrape_and_save_property_details env4 ["u", "u"] 1
      = .ok ((runLoop env4 ["u", "u"] 1).df,
             (runLoop env4 ["u", "u"] 1).df) :=
  ⟨rfl, rfl, rfl, rfl⟩

/-- C4 (amended): a failing checkpoint write inside the loop is swallowed
by the per-listing handler — the record stays appended, the file keeps
its previous content and the loop continues; only the final write after
the loop is unprotected, so the run raises to the caller exactly when
that final write attempt fails. -/
theorem claim_C4 :
    (∀ (env : RunEnv) (b : Nat) (s : RunState) (i : Nat) (u : String)
        (doc : Doc) (r : RecDict), env.fetch i = .ok doc →
        extract_house_details doc = .ok r → b ≠ 0 → i % b = 0 →
        env.writeFails s.writes = true →
        scrapeStep env b s (i, u)
          = { df := s.df ++ [r], file := s.file,
              writes := s.writes + 1 }) ∧
    (∀ (env : RunEnv) (urls : List String) (b : Nat),
        scrape_and_save_property_details env urls b
            = .error .persistenceError
          ↔ env.writeFails (runLoop env urls b).writes = true) := by
  constructor
  · intro env b s i u doc r hf hx hb hi hw
    simp [scrapeStep, hf, hx, hb, hi, hw]
  · intro env urls b
    by_cases hw : env.writeFails (runLoop env urls b).writes = true
    · simp [scrape_and_save_property_details, hw]
    · simp [scrape_and_save_property_details, hw]

/-- C4 witness: the swallowed checkpoint failure at position 0 on `env4`,
and the fatality criterion instantiated on the same run. -/
theorem claim_C4_witness :
    scrapeStep env4 1 { df := [], file := none, writes := 0 } (0, "u")
      = { df := [] ++ [(extract_house_details d0).toOption.getD []],
          file := none, writes := 0 + 1 } ∧
    (scrape_and_save_property_details env4 ["u", "u"] 1
        = .error .persistenceError
      ↔ env4.writeFails (runLoop env4 ["u", "u"] 1).writes = true) :=
  ⟨claim_C4.1 env4 1 { df := [], file := none, writes := 0 } 0 "u" d0
      ((extract_house_details d0).toOption.getD []) rfl rfl
      (by decide) rfl rfl,
   claim_C4.2 env4 ["u", "u"] 1⟩

theorem hrefMap_length (l : List Node) :
    (l.filterMap (fun n => (getAttr n "href").map
        (fun h => "https://www.redfin.com" ++ h))).length
      = (l.filter (fun n => (getAttr n "href").isSome)).length := by
  induction l with
  | nil => rfl
  | cons n ns ih => cases h : getAttr n "href" <;> simp [h, ih]

/-- C7: `fetch_page_urls` returns the seed URL first, followed by one
resolved URL per discovered pagination anchor in document order; with
zero pagination anchors it returns exactly the one-element list holding
the seed, as a normal value (no error is even possible in its type). -/
theorem claim_C7 (u : String) (doc : Doc) :
    (fetch_page_urls u doc).head? = some u ∧
    (fetch_page_urls u doc).length = 1 + (pageAnchors doc).length ∧
    (pageAnchors doc = [] → fetch_page_urls u doc = [u]) := by
  refine ⟨rfl, ?_, ?_⟩
  · show (u :: _).length = _
    rw [List.length_cons, hrefMap_length]
    rw [show pageAnchors doc
      = (findAllDoc doc "a" [("class", "clickable goToPage")]).filter
          (fun n => (getAttr n "href").isSome) from rfl]
    exact Nat.add_comm _ 1
  · intro h
    have hlen := hrefMap_length
      (findAllDoc doc "a" [("class", "clickable goToPage")])
    rw [show (findAllDoc doc "a" [("class", "clickable goToPage")]).filter
          (fun n => (getAttr n "href").isSome) = [] from h] at hlen
    simp only [List.length_nil] at hlen
    have hnil := List.length_eq_zero.mp hlen
    show u :: _ = [u]
    rw [hnil]

/-- C7 witness: a seed document with no pagination anchors yields exactly
the seed URL. -/
theorem claim_C7_witness :
    fetch_page_urls "https://www.redfin.com/city/seed" ([] : Doc)
      = ["https://www.redfin.com/city/seed"] :=
  (claim_C7 "https://www.redfin.com/city/seed" []).2.2 rfl

/-- C9: the school mapping pairs the `i`-th name with the `i`-th rating
for every `i` below the shorter length (`zip` truncates the longer
sequence), and extraction completes with exactly that truncated dict
stored under `Schools` — a length mismatch raises no error. -/
theorem claim_C9 (doc : Doc) :
    (schoolPairs doc).length
        = min (schoolNames doc).length (schoolRatings doc).length ∧
    (∀ (i : Nat) (hn : i < (schoolNames doc).length)
        (hr : i < (schoolRatings doc).length),
        (schoolPairs doc).get? i
          = some ((schoolNames doc).get ⟨i, hn⟩,
                  (schoolRatings doc).get ⟨i, hr⟩)) ∧
    (∀ r : RecDict, extract_house_details doc = .ok r →
        dictLookup r "Schools" = some (.schools (schoolDictOf doc))) := by
  refine ⟨by simp [schoolPairs], ?_, ?_⟩
  · intro i hn hr
    apply (List.get?_zip_eq_some _ _ _ _).mpr
    exact ⟨List.get?_eq_get hn, List.get?_eq_get hr⟩
  · intro r hx
    exact dictLookup_extract doc r "Schools" _ hx (fun poi => rfl)

/-- C9 witness: on `d3` (two names, three ratings) the pairing truncates
to two pairs, pair 1 is `("B", "8")`, and extraction succeeds with the
truncated dict. -/
theorem claim_C9_witness :
    (schoolPairs d3).get? 1 = some ("B", "8") ∧
    dictLookup ((extract_house_details d3).toOption.getD []) "Schools"
      = some (.schools (schoolDictOf d3)) :=
  ⟨((claim_C9 d3).2.1 1 (by decide) (by decide)).trans (by decide),
   (claim_C9 d3).2.2 _ rfl⟩

/-- C10: because `table_dict.update(l)` merges the named-field dict last,
any key of the generic key-detail table that collides with a named field
is overwritten: looking up any named-field key in the returned record
gives the named-field dict's value, never the key-detail value. -/
theorem claim_C10 (doc : Doc) (r l : RecDict) (k : String)
    (hx : extract_house_details doc = .ok r)
    (hl : namedList doc = .ok l)
    (hk : (dictLookup l k).isSome = true) :
    dictLookup r k = dictLookup l k := by
  obtain ⟨t, poi, -, -, hn, hr⟩ := extract_ok_decomp doc r hx
  rw [hn] at hl
  have hbl : buildL doc poi = l := by simpa using hl
  rw [hr, hbl]
  exact dictLookup_dictUpdate_isSome l (hbl ▸ buildL_keys_nodup doc poi) t k hk

/-- C10 witness: on `d2` the key-detail table captures the key `Beds`
with value `"999"`, yet the returned record's `Beds` equals the named
extraction's value (the missing sentinel, since `d2` has no abp-beds
node), not `"999"`. -/
theorem claim_C10_witness :
    dictLookup ((extract_house_details d2).toOption.getD []) "Beds"
      = dictLookup ((namedList d2).toOption.getD []) "Beds" ∧
    keyDetailDict d2 = .ok [("Beds", .str "999")] ∧
    dictLookup ((namedList d2).toOption.getD []) "Beds" = some .nan :=
  ⟨claim_C10 d2 ((extract_house_details d2).toOption.getD [])
      ((namedList d2).toOption.getD []) "Beds" rfl rfl rfl,
   rfl, rfl⟩
